import Mathlib

/-!
Shallow embedding of the two detail models of the spot media browser
(`details_model.rs` and `playlist_details_model.rs`).

The two source files define `DetailsModel` (album details) and
`PlaylistDetailsModel`.  Each owns an entity id, reads projections of the
shared `AppState`, and dispatches actions.  We embed each method as a pure
function from the model's id and an explicit `AppState` to the list of
actions it dispatches (in dispatch order) together with its return value.
Asynchronous units of work are embedded as functions from the outcome of
the network call they await to the `Option AppAction` they resolve to.

Supporting types that are not part of the two source files (the state
shapes, action/event enums, `SelectionState`, `SongModel`, `handle_error`)
are modelled from the spec; each such definition carries a doc comment
saying so.
-/

/-- Modelled from the spec: an artist reference (id and display name) as it
appears in song and album descriptors. -/
structure ArtistRef where
  id : String
  name : String
deriving DecidableEq, Repr

/-- Modelled from the spec: `SongDescription`: id, artist list; immutable
once fetched. -/
structure SongDescription where
  id : String
  artists : List ArtistRef
deriving DecidableEq, Repr

/-- Modelled from the spec: an album descriptor with its song list, artist
list and liked/saved flag. -/
structure AlbumDescription where
  id : String
  artists : List ArtistRef
  is_liked : Bool
  songs : List SongDescription
deriving DecidableEq, Repr

/-- Modelled from the spec: a playlist owner reference. -/
structure UserRef where
  id : String
deriving DecidableEq, Repr

/-- Modelled from the spec: a playlist descriptor with its owner and song
list. -/
structure PlaylistDescription where
  id : String
  owner : UserRef
  songs : List SongDescription
deriving DecidableEq, Repr

/-- Modelled from the spec: pagination cursor: next-offset/batch-size pair
describing how to fetch the next page of a list. -/
structure Pagination where
  next_offset : Option Nat
  batch_size : Nat
deriving DecidableEq, Repr

/-- Modelled from the spec: per-album-id detail sub-state with
`content : Option AlbumDescription`. -/
structure DetailsState where
  content : Option AlbumDescription
deriving DecidableEq, Repr

/-- Modelled from the spec: per-playlist-id detail sub-state with the
optional playlist descriptor and the pagination cursor. -/
structure PlaylistDetailsState where
  playlist : Option PlaylistDescription
  next_page : Pagination
deriving DecidableEq, Repr

/-- Playback source: identifies which playlist/album is currently loaded
into the player, compared by value. -/
inductive PlaylistSource where
  | Album (id : String)
  | Playlist (id : String)
deriving DecidableEq, Repr

/-- Modelled from the spec: `PlaybackState` tracks the active source and
the current song id. -/
structure PlaybackState where
  source : Option PlaylistSource
  current_song_id : Option String
deriving DecidableEq, Repr

/-- Modelled from the spec: `SelectionState` is a set of selected song
identifiers (kept here as a list of ids). -/
structure SelectionState where
  selected : List String
deriving DecidableEq, Repr

/-- Modelled from the spec: "all selected" is computed, never stored, as a
membership test of a given song-id sequence over the selection. -/
def SelectionState.all_selected (s : SelectionState) (ids : List String) : Bool :=
  ids.all (fun i => s.selected.contains i)

/-- Modelled from the spec: applying a deselect action removes the given
ids from the selection set. -/
def SelectionState.apply_deselect (s : SelectionState) (ids : List String) : SelectionState :=
  ⟨s.selected.filter (fun i => !(ids.contains i))⟩

/-- Modelled from the spec: `AppState`, the aggregate root: browser
sub-states keyed by entity id, playback state and selection state. -/
structure AppState where
  browser_details : List (String × DetailsState)
  browser_playlist_details : List (String × PlaylistDetailsState)
  playback : PlaybackState
  selection : SelectionState
deriving DecidableEq, Repr

/-- Modelled from the spec: `browser.details_state(id)`: the album detail
sub-state for an id, absent if never created. -/
def AppState.details_state (s : AppState) (id : String) : Option DetailsState :=
  s.browser_details.lookup id

/-- Modelled from the spec: `browser.playlist_details_state(id)`: the
playlist detail sub-state for an id, absent if never created. -/
def AppState.playlist_details_state (s : AppState) (id : String) : Option PlaylistDetailsState :=
  s.browser_playlist_details.lookup id

/-- Modelled from the spec: a typed network failure. -/
structure SpotifyError where
  message : String
deriving DecidableEq, Repr

inductive SelectionAction where
  | Select (songs : List SongDescription)
  | Deselect (ids : List String)
deriving DecidableEq, Repr

inductive PlaybackAction where
  | LoadPlaylist (source : Option PlaylistSource) (songs : List SongDescription)
  | Load (id : String)
deriving DecidableEq, Repr

inductive BrowserAction where
  | SetAlbumDetails (album : AlbumDescription)
  | SaveAlbum (album : AlbumDescription)
  | UnsaveAlbum (id : String)
  | SetPlaylistDetails (playlist : PlaylistDescription)
  | AppendPlaylistTracks (id : String) (tracks : List SongDescription)
deriving DecidableEq, Repr

/-- The application-level action type; `browser`, `playback` and
`selection` embed the sub-action types (the `.into()` conversions of the
source). `ShowError` is modelled from the spec as the error-surfacing
action produced by the error reporting collaborator. -/
inductive AppAction where
  | ViewArtist (id : String)
  | ViewUser (id : String)
  | ChangeSelectionMode (active : Bool)
  | browser (a : BrowserAction)
  | playback (a : PlaybackAction)
  | selection (a : SelectionAction)
  | ShowError (message : String)
deriving DecidableEq, Repr

/-- Modelled from the spec: browser events notified after store mutations.
The kinds the two models inspect are `AlbumDetailsLoaded`,
`PlaylistDetailsLoaded` and `PlaylistTracksAppended`; the remaining
constructors stand for the unrelated browser event kinds. -/
inductive BrowserEvent where
  | AlbumDetailsLoaded (id : String)
  | PlaylistDetailsLoaded (id : String)
  | PlaylistTracksAppended (id : String) (index : Nat)
  | AlbumSaved (id : String)
  | AlbumUnsaved (id : String)
  | NavigationPushed (id : String)
deriving DecidableEq, Repr

/-- Modelled from the spec: application events; browser events are wrapped,
and the remaining constructors stand for event kinds unrelated to the
browser. -/
inductive AppEvent where
  | BrowserEvent (e : BrowserEvent)
  | Started
  | SelectionModeChanged (active : Bool)
  | TrackChanged (id : String)
deriving DecidableEq, Repr

/-- The entity id carried by an event, if any. -/
def AppEvent.entity_id : AppEvent → Option String
  | AppEvent.BrowserEvent (BrowserEvent.AlbumDetailsLoaded i) => some i
  | AppEvent.BrowserEvent (BrowserEvent.PlaylistDetailsLoaded i) => some i
  | AppEvent.BrowserEvent (BrowserEvent.PlaylistTracksAppended i _) => some i
  | AppEvent.BrowserEvent (BrowserEvent.AlbumSaved i) => some i
  | AppEvent.BrowserEvent (BrowserEvent.AlbumUnsaved i) => some i
  | AppEvent.BrowserEvent (BrowserEvent.NavigationPushed i) => some i
  | AppEvent.TrackChanged i => some i
  | _ => none

/-- Whether an event is a details-loading or track-appending kind. -/
def AppEvent.is_load_or_append : AppEvent → Bool
  | AppEvent.BrowserEvent (BrowserEvent.AlbumDetailsLoaded _) => true
  | AppEvent.BrowserEvent (BrowserEvent.PlaylistDetailsLoaded _) => true
  | AppEvent.BrowserEvent (BrowserEvent.PlaylistTracksAppended _ _) => true
  | _ => false

/-- Modelled from the spec: the row model handed to the presentation
collaborator: a song together with its assigned zero-based index. -/
structure SongModel where
  index : Nat
  song : SongDescription
deriving DecidableEq, Repr

/-- Modelled from the spec: `to_song_model(i)` pairs a song with the index
assigned to its row. -/
def SongDescription.to_song_model (s : SongDescription) (i : Nat) : SongModel :=
  ⟨i, s⟩

/-- Minimal description of how a displayed list changed: full replace
(`Set`) or append at an index. -/
inductive ListDiff (α : Type) where
  | Set (items : List α)
  | Append (items : List α)
deriving DecidableEq, Repr

/-- Modelled from the spec: the selection tools; `SelectAll` carries no
intrinsic default action, other tools may. -/
inductive SelectionTool where
  | SelectAll
  | Custom (default : Option AppAction)
deriving DecidableEq, Repr

/-- Modelled from the spec: the intrinsic default action of a tool. -/
def SelectionTool.default_action : SelectionTool → Option AppAction
  | SelectionTool.SelectAll => none
  | SelectionTool.Custom a => a

/-- Modelled from the spec: the error reporting collaborator takes a
network failure and produces an optional error-surfacing action. -/
def handle_error (err : SpotifyError) : Option AppAction :=
  some (AppAction.ShowError err.message)

/-- Whether an action mutates a browser details slot (the browser actions
are exactly the details-mutating ones in scope). -/
def AppAction.mutates_details : AppAction → Bool
  | AppAction.browser _ => true
  | _ => false

/-! ## DetailsModel (album details, `details_model.rs`)

The model owns `id : String`; `app_model` becomes an explicit `AppState`
argument, `dispatcher.dispatch` becomes the returned action list (in
dispatch order), `dispatcher.dispatch_async` becomes a separate function
from the awaited network result to the resolved optional action. -/

namespace DetailsModel

/-- `songs_ref`: the songs of the loaded album details for this id, absent
if the sub-state or its content is absent. -/
def songs_ref (modelId : String) (s : AppState) : Option (List SongDescription) := do
  let ds ← s.details_state modelId
  let content ← ds.content
  pure content.songs

/-- `get_album_info`: the loaded album description for this id, if any. -/
def get_album_info (modelId : String) (s : AppState) : Option AlbumDescription := do
  let ds ← s.details_state modelId
  ds.content

/-- The async unit of work scheduled by `load_album_info`, as a function of
the network result of `get_album(id)`. -/
def load_album_info_task (result : Except SpotifyError AlbumDescription) :
    Option AppAction :=
  match result with
  | Except.ok album => some (AppAction.browser (BrowserAction.SetAlbumDetails album))
  | Except.error err => handle_error err

/-- Result of `view_artist`: either the dispatched actions, or a panic from
the `unwrap` on the first artist. -/
inductive ViewArtistResult where
  | panicked
  | dispatched (actions : List AppAction)
deriving DecidableEq, Repr

/-- `view_artist`: reads the loaded album, unwraps its first artist and
dispatches `ViewArtist`; no-op when details are absent. -/
def view_artist (modelId : String) (s : AppState) : ViewArtistResult :=
  match get_album_info modelId s with
  | none => ViewArtistResult.dispatched []
  | some album =>
    match album.artists.head? with
    | none => ViewArtistResult.panicked
    | some artist => ViewArtistResult.dispatched [AppAction.ViewArtist artist.id]

/-- Which network call the unit scheduled by `toggle_save_album` makes. -/
inductive SaveCall where
  | save_album (id : String)
  | remove_saved_album (id : String)
deriving DecidableEq, Repr

/-- `toggle_save_album`: reads the loaded album's liked flag and id and
schedules one async unit; returns the captured `(is_liked, id)` pair, or
`none` (no-op, nothing scheduled) when details are absent. -/
def toggle_save_album (modelId : String) (s : AppState) : Option (Bool × String) :=
  (get_album_info modelId s).map (fun album => (album.is_liked, album.id))

/-- The network call made by the async unit scheduled with the captured
`is_liked` and `id`. -/
def toggle_save_call (is_liked : Bool) (id : String) : SaveCall :=
  if !is_liked then SaveCall.save_album id else SaveCall.remove_saved_album id

/-- The async unit of work scheduled by `toggle_save_album`, as a function
of the captured flag and id and of the result of whichever network call it
makes (`save_album` when not liked, `remove_saved_album` when liked). -/
def toggle_save_task (is_liked : Bool) (id : String)
    (save_result : Except SpotifyError AlbumDescription)
    (remove_result : Except SpotifyError Unit) : Option AppAction :=
  if !is_liked then
    match save_result with
    | Except.ok album => some (AppAction.browser (BrowserAction.SaveAlbum album))
    | Except.error err => handle_error err
  else
    match remove_result with
    | Except.ok _ => some (AppAction.browser (BrowserAction.UnsaveAlbum id))
    | Except.error err => handle_error err

/-- `select_song` (PlaylistModel impl): looks the id up in the current song
list and dispatches `Select([song])` when found. -/
def select_song (modelId : String) (s : AppState) (id : String) : List AppAction :=
  match (songs_ref modelId s).bind (fun songs => songs.find? (fun song => song.id == id)) with
  | some song => [AppAction.selection (SelectionAction.Select [song])]
  | none => []

/-- `deselect_song` (PlaylistModel impl): dispatches `Deselect([id])`
unconditionally, with no lookup. -/
def deselect_song (_modelId : String) (_s : AppState) (id : String) : List AppAction :=
  [AppAction.selection (SelectionAction.Deselect [id])]

/-- `play_song` (PlaylistModel impl): when the playback source differs from
`Album(self.id)` and the song list is available, first dispatches
`LoadPlaylist` with a clone of the songs, then always dispatches `Load`. -/
def play_song (modelId : String) (s : AppState) (id : String) : List AppAction :=
  let source := some (PlaylistSource.Album modelId)
  (if s.playback.source ≠ source then
    match songs_ref modelId s with
    | some songs => [AppAction.playback (PlaybackAction.LoadPlaylist source songs)]
    | none => []
  else []) ++ [AppAction.playback (PlaybackAction.Load id)]

/-- `diff_for_event` (PlaylistModel impl): on `AlbumDetailsLoaded` for this
id, a full `Set` of the current songs enumerated from 0; otherwise none. -/
def diff_for_event (modelId : String) (s : AppState) (event : AppEvent) :
    Option (ListDiff SongModel) :=
  match event with
  | AppEvent.BrowserEvent (BrowserEvent.AlbumDetailsLoaded id) =>
    if id = modelId then
      (songs_ref modelId s).map (fun songs =>
        ListDiff.Set (songs.enum.map (fun p => p.2.to_song_model p.1)))
    else none
  | _ => none

/-- `handle_tool_activated` (SelectionToolsModel impl): a tool's default
action is dispatched directly; `SelectAll` without one dispatches, when the
song list is available, `Deselect` of all its ids if all are selected and
`Select` of all songs otherwise. -/
def handle_tool_activated (modelId : String) (s : AppState)
    (selection : SelectionState) (tool : SelectionTool) : List AppAction :=
  let action : Option AppAction :=
    match tool, tool.default_action with
    | _, some a => some a
    | SelectionTool.SelectAll, none =>
      (songs_ref modelId s).map (fun songs =>
        if selection.all_selected (songs.map (fun song => song.id)) then
          AppAction.selection (SelectionAction.Deselect (songs.map (fun song => song.id)))
        else
          AppAction.selection (SelectionAction.Select songs))
    | _, none => none
  match action with
  | some a => [a]
  | none => []

end DetailsModel

/-! ## PlaylistDetailsModel (`playlist_details_model.rs`) -/

namespace PlaylistDetailsModel

/-- `songs_ref`: the songs of the loaded playlist for this id, absent if
the sub-state or its playlist is absent. -/
def songs_ref (modelId : String) (s : AppState) : Option (List SongDescription) := do
  let ds ← s.playlist_details_state modelId
  let playlist ← ds.playlist
  pure playlist.songs

/-- `get_playlist_info`: the loaded playlist description for this id. -/
def get_playlist_info (modelId : String) (s : AppState) : Option PlaylistDescription := do
  let ds ← s.playlist_details_state modelId
  ds.playlist

/-- The async unit of work scheduled by `load_playlist_info`, as a function
of the network result of `get_playlist(id)`. -/
def load_playlist_info_task (result : Except SpotifyError PlaylistDescription) :
    Option AppAction :=
  match result with
  | Except.ok playlist => some (AppAction.browser (BrowserAction.SetPlaylistDetails playlist))
  | Except.error err => handle_error err

/-- The offset/batch-size pair of a scheduled `get_playlist_tracks` fetch. -/
structure AsyncFetch where
  offset : Nat
  batch_size : Nat
deriving DecidableEq, Repr

/-- `load_more_tracks`: reads the pagination cursor; the `?` early returns
on a missing sub-state or missing `next_offset` yield `none` with nothing
scheduled; otherwise exactly one fetch at `(next_offset, batch_size)` is
scheduled and `some ()` is returned.  The first component lists the
scheduled fetches. -/
def load_more_tracks (modelId : String) (s : AppState) :
    List AsyncFetch × Option Unit :=
  match s.playlist_details_state modelId with
  | none => ([], none)
  | some ds =>
    match ds.next_page.next_offset with
    | none => ([], none)
    | some next_offset => ([⟨next_offset, ds.next_page.batch_size⟩], some ())

/-- The async unit of work scheduled by `load_more_tracks`, as a function
of the network result of `get_playlist_tracks`. -/
def load_more_tracks_task (modelId : String)
    (result : Except SpotifyError (List SongDescription)) : Option AppAction :=
  match result with
  | Except.ok tracks => some (AppAction.browser (BrowserAction.AppendPlaylistTracks modelId tracks))
  | Except.error err => handle_error err

/-- `view_owner`: reads the loaded playlist and dispatches `ViewUser` with
the owner's id; no-op when the playlist is absent. -/
def view_owner (modelId : String) (s : AppState) : List AppAction :=
  match get_playlist_info modelId s with
  | none => []
  | some playlist => [AppAction.ViewUser playlist.owner.id]

/-- `play_song` (PlaylistModel impl): when the playback source differs from
`Playlist(self.id)` and the song list is available, first dispatches
`LoadPlaylist` with a clone of the songs, then always dispatches `Load`. -/
def play_song (modelId : String) (s : AppState) (id : String) : List AppAction :=
  let source := some (PlaylistSource.Playlist modelId)
  (if s.playback.source ≠ source then
    match songs_ref modelId s with
    | some songs => [AppAction.playback (PlaybackAction.LoadPlaylist source songs)]
    | none => []
  else []) ++ [AppAction.playback (PlaybackAction.Load id)]

/-- `diff_for_event` (PlaylistModel impl): on `PlaylistDetailsLoaded` for
this id a full `Set` enumerated from 0; on `PlaylistTracksAppended` for
this id an `Append` of the enumerated songs with the first `index`
entries skipped; otherwise none. -/
def diff_for_event (modelId : String) (s : AppState) (event : AppEvent) :
    Option (ListDiff SongModel) :=
  match event with
  | AppEvent.BrowserEvent (BrowserEvent.PlaylistDetailsLoaded id) =>
    if id = modelId then
      (songs_ref modelId s).map (fun songs =>
        ListDiff.Set (songs.enum.map (fun p => p.2.to_song_model p.1)))
    else none
  | AppEvent.BrowserEvent (BrowserEvent.PlaylistTracksAppended id index) =>
    if id = modelId then
      (songs_ref modelId s).map (fun songs =>
        ListDiff.Append ((songs.enum.drop index).map (fun p => p.2.to_song_model p.1)))
    else none
  | _ => none

/-- `select_song` (PlaylistModel impl): looks the id up in the current song
list and dispatches `Select([song])` when found. -/
def select_song (modelId : String) (s : AppState) (id : String) : List AppAction :=
  match (songs_ref modelId s).bind (fun songs => songs.find? (fun song => song.id == id)) with
  | some song => [AppAction.selection (SelectionAction.Select [song])]
  | none => []

/-- `deselect_song` (PlaylistModel impl): dispatches `Deselect([id])`
unconditionally, with no lookup. -/
def deselect_song (_modelId : String) (_s : AppState) (id : String) : List AppAction :=
  [AppAction.selection (SelectionAction.Deselect [id])]

/-- `handle_tool_activated` (SelectionToolsModel impl): identical in shape
to the album model's. -/
def handle_tool_activated (modelId : String) (s : AppState)
    (selection : SelectionState) (tool : SelectionTool) : List AppAction :=
  let action : Option AppAction :=
    match tool, tool.default_action with
    | _, some a => some a
    | SelectionTool.SelectAll, none =>
      (songs_ref modelId s).map (fun songs =>
        if selection.all_selected (songs.map (fun song => song.id)) then
          AppAction.selection (SelectionAction.Deselect (songs.map (fun song => song.id)))
        else
          AppAction.selection (SelectionAction.Select songs))
    | _, none => none
  match action with
  | some a => [a]
  | none => []

end PlaylistDetailsModel

/-! ## Concrete fixtures used by witnesses and counterexamples -/

def exSongA : SongDescription := ⟨"s1", [⟨"ar1", "Artist One"⟩]⟩

def exSongB : SongDescription := ⟨"s2", [⟨"ar2", "Artist Two"⟩]⟩

def exAlbum : AlbumDescription := ⟨"a1", [⟨"ar1", "Artist One"⟩], false, [exSongA, exSongB]⟩

def exAlbumLiked : AlbumDescription := ⟨"a4", [⟨"ar1", "Artist One"⟩], true, [exSongA]⟩

def exAlbumOneSong : AlbumDescription := ⟨"a2", [], false, [exSongA]⟩

def exAlbumNoSongs : AlbumDescription := ⟨"a3", [], false, []⟩

def exPlaylist : PlaylistDescription := ⟨"p1", ⟨"u1"⟩, [exSongA, exSongB]⟩

def exStateLoaded : AppState :=
  { browser_details := [("a1", ⟨some exAlbum⟩), ("a4", ⟨some exAlbumLiked⟩)]
    browser_playlist_details := [("p1", ⟨some exPlaylist, ⟨some 2, 50⟩⟩)]
    playback := ⟨none, none⟩
    selection := ⟨[]⟩ }

def exStateEmpty : AppState :=
  { browser_details := []
    browser_playlist_details := []
    playback := ⟨none, none⟩
    selection := ⟨[]⟩ }

def exStateSel : AppState :=
  { browser_details := [("a2", ⟨some exAlbumOneSong⟩), ("a3", ⟨some exAlbumNoSongs⟩)]
    browser_playlist_details := [("p2", ⟨some ⟨"p2", ⟨"u1"⟩, [exSongA]⟩, ⟨none, 50⟩⟩)]
    playback := ⟨none, none⟩
    selection := ⟨["s1", "s2"]⟩ }

/-! ## Claim theorems -/

/-- C2: for both models, after the initial details-loaded event for the
model's own id following a successful load (so the song list is present in
state), `diff_for_event` yields `Set` of exactly the loaded songs in their
fetched order, the item at position `i` being the song at position `i`
paired with index `i`. -/
theorem diff_for_event_initial_load_set (modelId : String) (s : AppState)
    (songsA songsP : List SongDescription) :
    (DetailsModel.songs_ref modelId s = some songsA →
      ∃ items, DetailsModel.diff_for_event modelId s
            (AppEvent.BrowserEvent (BrowserEvent.AlbumDetailsLoaded modelId)) =
          some (ListDiff.Set items) ∧
        items.length = songsA.length ∧
        ∀ i : Nat, items[i]? = (songsA[i]?).map (fun sd => SongModel.mk i sd)) ∧
    (PlaylistDetailsModel.songs_ref modelId s = some songsP →
      ∃ items, PlaylistDetailsModel.diff_for_event modelId s
            (AppEvent.BrowserEvent (BrowserEvent.PlaylistDetailsLoaded modelId)) =
          some (ListDiff.Set items) ∧
        items.length = songsP.length ∧
        ∀ i : Nat, items[i]? = (songsP[i]?).map (fun sd => SongModel.mk i sd)) := by
  constructor
  · intro h
    refine ⟨songsA.enum.map (fun p => p.2.to_song_model p.1), ?_, ?_, ?_⟩
    · simp [DetailsModel.diff_for_event, h]
    · simp
    · intro i
      simp only [List.getElem?_map, List.getElem?_enum, SongDescription.to_song_model,
        Option.map_map]
      cases songsA[i]? <;> rfl
  · intro h
    refine ⟨songsP.enum.map (fun p => p.2.to_song_model p.1), ?_, ?_, ?_⟩
    · simp [PlaylistDetailsModel.diff_for_event, h]
    · simp
    · intro i
      simp only [List.getElem?_map, List.getElem?_enum, SongDescription.to_song_model,
        Option.map_map]
      cases songsP[i]? <;> rfl

/-- C2 witness: both halves instantiated on the loaded fixture state. -/
theorem diff_for_event_initial_load_set_witness :
    (∃ items, DetailsModel.diff_for_event "a1" exStateLoaded
          (AppEvent.BrowserEvent (BrowserEvent.AlbumDetailsLoaded "a1")) =
        some (ListDiff.Set items) ∧
      items.length = ([exSongA, exSongB] : List SongDescription).length ∧
      ∀ i : Nat, items[i]? =
        (([exSongA, exSongB] : List SongDescription)[i]?).map (fun sd => SongModel.mk i sd)) ∧
    (∃ items, PlaylistDetailsModel.diff_for_event "p1" exStateLoaded
          (AppEvent.BrowserEvent (BrowserEvent.PlaylistDetailsLoaded "p1")) =
        some (ListDiff.Set items) ∧
      items.length = ([exSongA, exSongB] : List SongDescription).length ∧
      ∀ i : Nat, items[i]? =
        (([exSongA, exSongB] : List SongDescription)[i]?).map (fun sd => SongModel.mk i sd)) :=
  ⟨(diff_for_event_initial_load_set "a1" exStateLoaded [exSongA, exSongB] []).1 (by decide),
   (diff_for_event_initial_load_set "p1" exStateLoaded [] [exSongA, exSongB]).2 (by decide)⟩

/-- C3: for the playlist model, after a `PlaylistTracksAppended` event for
its own id carrying start index `k`, `diff_for_event` yields `Append` of
exactly the songs of the current list from position `k` onward, the item
at position `i` of the diff being the song at position `k + i` paired with
index `k + i` (so indices start at `k` and increase by one, gap-free). -/
theorem diff_for_event_append_tracks (modelId : String) (s : AppState)
    (songs : List SongDescription) (k : Nat)
    (h : PlaylistDetailsModel.songs_ref modelId s = some songs) :
    ∃ items, PlaylistDetailsModel.diff_for_event modelId s
          (AppEvent.BrowserEvent (BrowserEvent.PlaylistTracksAppended modelId k)) =
        some (ListDiff.Append items) ∧
      items.length = songs.length - k ∧
      ∀ i : Nat, items[i]? = (songs[k + i]?).map (fun sd => SongModel.mk (k + i) sd) := by
  refine ⟨(songs.enum.drop k).map (fun p => p.2.to_song_model p.1), ?_, ?_, ?_⟩
  · simp [PlaylistDetailsModel.diff_for_event, h]
  · simp
  · intro i
    simp only [List.getElem?_map, List.getElem?_drop, List.getElem?_enum,
      SongDescription.to_song_model, Option.map_map]
    cases songs[k + i]? <;> rfl

/-- C3 witness: appending at index 1 on the loaded two-song playlist. -/
theorem diff_for_event_append_tracks_witness :
    ∃ items, PlaylistDetailsModel.diff_for_event "p1" exStateLoaded
          (AppEvent.BrowserEvent (BrowserEvent.PlaylistTracksAppended "p1" 1)) =
        some (ListDiff.Append items) ∧
      items.length = ([exSongA, exSongB] : List SongDescription).length - 1 ∧
      ∀ i : Nat, items[i]? =
        (([exSongA, exSongB] : List SongDescription)[1 + i]?).map
          (fun sd => SongModel.mk (1 + i) sd) :=
  diff_for_event_append_tracks "p1" exStateLoaded [exSongA, exSongB] 1 (by decide)

/-- C4: for both models, `diff_for_event` returns `none` for every event
that either carries an entity id different from the model's own id or is of
a kind unrelated to details loading and track appending. -/
theorem diff_for_event_irrelevant_none (modelId : String) (s : AppState) (e : AppEvent)
    (h : e.entity_id ≠ some modelId ∨ e.is_load_or_append = false) :
    DetailsModel.diff_for_event modelId s e = none ∧
    PlaylistDetailsModel.diff_for_event modelId s e = none := by
  cases e with
  | BrowserEvent be =>
    cases be <;>
      simp_all [AppEvent.entity_id, AppEvent.is_load_or_append,
        DetailsModel.diff_for_event, PlaylistDetailsModel.diff_for_event]
  | Started =>
    simp [DetailsModel.diff_for_event, PlaylistDetailsModel.diff_for_event]
  | SelectionModeChanged a =>
    simp [DetailsModel.diff_for_event, PlaylistDetailsModel.diff_for_event]
  | TrackChanged i =>
    simp [DetailsModel.diff_for_event, PlaylistDetailsModel.diff_for_event]

/-- C4 witness: a details-loaded event for a different id, on the loaded
fixture state with song lists present, yields `none` for both models. -/
theorem diff_for_event_irrelevant_none_witness :
    DetailsModel.diff_for_event "a1" exStateLoaded
        (AppEvent.BrowserEvent (BrowserEvent.AlbumDetailsLoaded "zz")) = none ∧
    PlaylistDetailsModel.diff_for_event "a1" exStateLoaded
        (AppEvent.BrowserEvent (BrowserEvent.AlbumDetailsLoaded "zz")) = none :=
  diff_for_event_irrelevant_none "a1" exStateLoaded
    (AppEvent.BrowserEvent (BrowserEvent.AlbumDetailsLoaded "zz")) (by decide)

/-- C1 counterexample: with no song list loaded and an active source that
differs from the entity (`none ≠ some (Album "a1")`), `play_song`
dispatches a single `Load` action, not two actions. -/
theorem play_song_counterexample :
    exStateEmpty.playback.source ≠ some (PlaylistSource.Album "a1") ∧
    DetailsModel.play_song "a1" exStateEmpty "s1" =
      [AppAction.playback (PlaybackAction.Load "s1")] ∧
    (DetailsModel.play_song "a1" exStateEmpty "s1").length ≠ 2 := by decide

/-- C1 (amended): for both models, when the active source differs from this
entity and the song list is loaded, `play_song` dispatches exactly
`LoadPlaylist` (with the entity as source and the full current song list)
followed by `Load`; when the source differs but no song list is loaded, or
when the source already matches, it dispatches only `Load`. -/
theorem play_song_dispatch_order (modelId : String) (s : AppState) (songId : String) :
    ((s.playback.source ≠ some (PlaylistSource.Album modelId) →
        (∀ songs, DetailsModel.songs_ref modelId s = some songs →
          DetailsModel.play_song modelId s songId =
            [AppAction.playback (PlaybackAction.LoadPlaylist
                (some (PlaylistSource.Album modelId)) songs),
              AppAction.playback (PlaybackAction.Load songId)]) ∧
        (DetailsModel.songs_ref modelId s = none →
          DetailsModel.play_song modelId s songId =
            [AppAction.playback (PlaybackAction.Load songId)])) ∧
      (s.playback.source = some (PlaylistSource.Album modelId) →
        DetailsModel.play_song modelId s songId =
          [AppAction.playback (PlaybackAction.Load songId)])) ∧
    ((s.playback.source ≠ some (PlaylistSource.Playlist modelId) →
        (∀ songs, PlaylistDetailsModel.songs_ref modelId s = some songs →
          PlaylistDetailsModel.play_song modelId s songId =
            [AppAction.playback (PlaybackAction.LoadPlaylist
                (some (PlaylistSource.Playlist modelId)) songs),
              AppAction.playback (PlaybackAction.Load songId)]) ∧
        (PlaylistDetailsModel.songs_ref modelId s = none →
          PlaylistDetailsModel.play_song modelId s songId =
            [AppAction.playback (PlaybackAction.Load songId)])) ∧
      (s.playback.source = some (PlaylistSource.Playlist modelId) →
        PlaylistDetailsModel.play_song modelId s songId =
          [AppAction.playback (PlaybackAction.Load songId)])) := by
  refine ⟨⟨fun hne => ⟨fun songs hs => ?_, fun hn => ?_⟩, fun heq => ?_⟩,
    ⟨fun hne => ⟨fun songs hs => ?_, fun hn => ?_⟩, fun heq => ?_⟩⟩
  · simp [DetailsModel.play_song, hne, hs]
  · simp [DetailsModel.play_song, hne, hn]
  · simp [DetailsModel.play_song, heq]
  · simp [PlaylistDetailsModel.play_song, hne, hs]
  · simp [PlaylistDetailsModel.play_song, hne, hn]
  · simp [PlaylistDetailsModel.play_song, heq]

/-- C1 witness: on the loaded fixture state (source `none`, songs loaded)
both models dispatch the two-action sequence. -/
theorem play_song_dispatch_order_witness :
    DetailsModel.play_song "a1" exStateLoaded "s2" =
      [AppAction.playback (PlaybackAction.LoadPlaylist
          (some (PlaylistSource.Album "a1")) [exSongA, exSongB]),
        AppAction.playback (PlaybackAction.Load "s2")] ∧
    PlaylistDetailsModel.play_song "p1" exStateLoaded "s2" =
      [AppAction.playback (PlaybackAction.LoadPlaylist
          (some (PlaylistSource.Playlist "p1")) [exSongA, exSongB]),
        AppAction.playback (PlaybackAction.Load "s2")] :=
  ⟨((play_song_dispatch_order "a1" exStateLoaded "s2").1.1 (by decide)).1
      [exSongA, exSongB] (by decide),
    ((play_song_dispatch_order "p1" exStateLoaded "s2").2.1 (by decide)).1
      [exSongA, exSongB] (by decide)⟩

/-- Helper for the select-all tool: after deselecting a nonempty id list,
that id list is no longer all-selected. -/
lemma all_selected_after_apply_deselect (sel : SelectionState) (ids : List String)
    (h : ids ≠ []) :
    (sel.apply_deselect ids).all_selected ids = false := by
  obtain ⟨x, xs, rfl⟩ := List.exists_cons_of_ne_nil h
  simp [SelectionState.all_selected, SelectionState.apply_deselect, List.mem_filter]

/-- C5 counterexample: with song list `[exSongA]` (ids `["s1"]`) and
current selection `["s1", "s2"]` every item is selected, yet the dispatched
deselect carries only the song-list ids `["s1"]` and omits the
currently-selected id `"s2"`; moreover with an empty song list any
selection is vacuously all-selected, so re-activation dispatches
`Deselect []` again rather than a select of all items. -/
theorem select_all_tool_counterexample :
    (⟨["s1", "s2"]⟩ : SelectionState).all_selected
        ([exSongA].map (fun song => song.id)) = true ∧
    DetailsModel.handle_tool_activated "a2" exStateSel ⟨["s1", "s2"]⟩
        SelectionTool.SelectAll =
      [AppAction.selection (SelectionAction.Deselect ["s1"])] ∧
    "s2" ∈ (⟨["s1", "s2"]⟩ : SelectionState).selected ∧
    "s2" ∉ (["s1"] : List String) ∧
    DetailsModel.handle_tool_activated "a3" exStateSel ⟨[]⟩ SelectionTool.SelectAll =
      [AppAction.selection (SelectionAction.Deselect [])] := by decide

/-- C5 (amended): for both models, activating the select-all tool (which
has no intrinsic default action) when the song list is loaded dispatches,
if every item of the list is already selected, a deselect carrying exactly
the ids of the full song list (not of the whole selection); otherwise a
select carrying the full item set.  After such a full deselect, provided
the song list is nonempty, activating again dispatches a select of all
items. -/
theorem select_all_tool_spec (modelId : String) (s : AppState)
    (sel : SelectionState) (songsA songsP : List SongDescription) :
    (DetailsModel.songs_ref modelId s = some songsA →
      (sel.all_selected (songsA.map (fun song => song.id)) = true →
        DetailsModel.handle_tool_activated modelId s sel SelectionTool.SelectAll =
          [AppAction.selection
            (SelectionAction.Deselect (songsA.map (fun song => song.id)))] ∧
        (songsA ≠ [] →
          DetailsModel.handle_tool_activated modelId s
              (sel.apply_deselect (songsA.map (fun song => song.id)))
              SelectionTool.SelectAll =
            [AppAction.selection (SelectionAction.Select songsA)])) ∧
      (sel.all_selected (songsA.map (fun song => song.id)) = false →
        DetailsModel.handle_tool_activated modelId s sel SelectionTool.SelectAll =
          [AppAction.selection (SelectionAction.Select songsA)])) ∧
    (PlaylistDetailsModel.songs_ref modelId s = some songsP →
      (sel.all_selected (songsP.map (fun song => song.id)) = true →
        PlaylistDetailsModel.handle_tool_activated modelId s sel SelectionTool.SelectAll =
          [AppAction.selection
            (SelectionAction.Deselect (songsP.map (fun song => song.id)))] ∧
        (songsP ≠ [] →
          PlaylistDetailsModel.handle_tool_activated modelId s
              (sel.apply_deselect (songsP.map (fun song => song.id)))
              SelectionTool.SelectAll =
            [AppAction.selection (SelectionAction.Select songsP)])) ∧
      (sel.all_selected (songsP.map (fun song => song.id)) = false →
        PlaylistDetailsModel.handle_tool_activated modelId s sel SelectionTool.SelectAll =
          [AppAction.selection (SelectionAction.Select songsP)])) := by
  constructor
  · intro h
    refine ⟨fun hall => ⟨?_, fun hne => ?_⟩, fun hnall => ?_⟩
    · simp [DetailsModel.handle_tool_activated, SelectionTool.default_action, h, hall]
    · have hids : songsA.map (fun song => song.id) ≠ [] := by
        simpa using hne
      simp [DetailsModel.handle_tool_activated, SelectionTool.default_action, h,
        all_selected_after_apply_deselect sel _ hids]
    · simp [DetailsModel.handle_tool_activated, SelectionTool.default_action, h, hnall]
  · intro h
    refine ⟨fun hall => ⟨?_, fun hne => ?_⟩, fun hnall => ?_⟩
    · simp [PlaylistDetailsModel.handle_tool_activated, SelectionTool.default_action, h, hall]
    · have hids : songsP.map (fun song => song.id) ≠ [] := by
        simpa using hne
      simp [PlaylistDetailsModel.handle_tool_activated, SelectionTool.default_action, h,
        all_selected_after_apply_deselect sel _ hids]
    · simp [PlaylistDetailsModel.handle_tool_activated, SelectionTool.default_action, h, hnall]

/-- C5 witness: on the fixture state, the album model with everything
selected dispatches the deselect of the list ids and, re-activated after
the deselect, a select of all songs; the playlist model with an empty
selection dispatches a select of all songs. -/
theorem select_all_tool_spec_witness :
    (DetailsModel.handle_tool_activated "a2" exStateSel ⟨["s1", "s2"]⟩
        SelectionTool.SelectAll =
      [AppAction.selection
        (SelectionAction.Deselect ([exSongA].map (fun song => song.id)))] ∧
      DetailsModel.handle_tool_activated "a2" exStateSel
          ((⟨["s1", "s2"]⟩ : SelectionState).apply_deselect
            ([exSongA].map (fun song => song.id)))
          SelectionTool.SelectAll =
        [AppAction.selection (SelectionAction.Select [exSongA])]) ∧
    PlaylistDetailsModel.handle_tool_activated "p2" exStateSel ⟨[]⟩
        SelectionTool.SelectAll =
      [AppAction.selection (SelectionAction.Select [exSongA])] :=
  ⟨⟨(((select_all_tool_spec "a2" exStateSel ⟨["s1", "s2"]⟩ [exSongA] []).1
        (by decide)).1 (by decide)).1,
    (((select_all_tool_spec "a2" exStateSel ⟨["s1", "s2"]⟩ [exSongA] []).1
        (by decide)).1 (by decide)).2 (by decide)⟩,
   ((select_all_tool_spec "p2" exStateSel ⟨[]⟩ [] [exSongA]).2
        (by decide)).2 (by decide)⟩

/-- C6: `load_more_tracks` with an absent playlist details sub-state or an
absent `next_offset` schedules nothing and returns `none`; with a present
`next_offset` it schedules exactly one fetch at `(next_offset, batch_size)`
and returns `some ()`. -/
theorem load_more_tracks_pagination (modelId : String) (s : AppState) :
    (s.playlist_details_state modelId = none →
      PlaylistDetailsModel.load_more_tracks modelId s = ([], none)) ∧
    (∀ ds, s.playlist_details_state modelId = some ds →
      ds.next_page.next_offset = none →
      PlaylistDetailsModel.load_more_tracks modelId s = ([], none)) ∧
    (∀ ds off, s.playlist_details_state modelId = some ds →
      ds.next_page.next_offset = some off →
      PlaylistDetailsModel.load_more_tracks modelId s =
        ([⟨off, ds.next_page.batch_size⟩], some ())) := by
  refine ⟨fun h => ?_, fun ds h hoff => ?_, fun ds off h hoff => ?_⟩
  · simp [PlaylistDetailsModel.load_more_tracks, h]
  · simp [PlaylistDetailsModel.load_more_tracks, h, hoff]
  · simp [PlaylistDetailsModel.load_more_tracks, h, hoff]

/-- C6 witness: absent sub-state, exhausted cursor, and live cursor, each
on a fixture state. -/
theorem load_more_tracks_pagination_witness :
    PlaylistDetailsModel.load_more_tracks "p1" exStateEmpty = ([], none) ∧
    PlaylistDetailsModel.load_more_tracks "p2" exStateSel = ([], none) ∧
    PlaylistDetailsModel.load_more_tracks "p1" exStateLoaded = ([⟨2, 50⟩], some ()) :=
  ⟨(load_more_tracks_pagination "p1" exStateEmpty).1 (by decide),
   (load_more_tracks_pagination "p2" exStateSel).2.1
     ⟨some ⟨"p2", ⟨"u1"⟩, [exSongA]⟩, ⟨none, 50⟩⟩ (by decide) (by decide),
   (load_more_tracks_pagination "p1" exStateLoaded).2.2
     ⟨some exPlaylist, ⟨some 2, 50⟩⟩ 2 (by decide) (by decide)⟩

/-- C7: for both models, the async unit scheduled by the info loader
resolves to the set-details action carrying the fetched entity exactly on
network success; on failure it resolves to the error reporting
collaborator's result, which is never a details-mutating (browser)
action. -/
theorem load_info_task_resolution :
    (∀ album, DetailsModel.load_album_info_task (Except.ok album) =
      some (AppAction.browser (BrowserAction.SetAlbumDetails album))) ∧
    (∀ err, DetailsModel.load_album_info_task (Except.error err) = handle_error err) ∧
    (∀ r : Except SpotifyError AlbumDescription,
      (∃ album, DetailsModel.load_album_info_task r =
          some (AppAction.browser (BrowserAction.SetAlbumDetails album))) ↔
        ∃ album, r = Except.ok album) ∧
    (∀ playlist, PlaylistDetailsModel.load_playlist_info_task (Except.ok playlist) =
      some (AppAction.browser (BrowserAction.SetPlaylistDetails playlist))) ∧
    (∀ err, PlaylistDetailsModel.load_playlist_info_task (Except.error err) =
      handle_error err) ∧
    (∀ r : Except SpotifyError PlaylistDescription,
      (∃ playlist, PlaylistDetailsModel.load_playlist_info_task r =
          some (AppAction.browser (BrowserAction.SetPlaylistDetails playlist))) ↔
        ∃ playlist, r = Except.ok playlist) ∧
    (∀ err a, handle_error err = some a → a.mutates_details = false) := by
  refine ⟨fun album => rfl, fun err => rfl, fun r => ?_, fun playlist => rfl,
    fun err => rfl, fun r => ?_, fun err a h => ?_⟩
  · cases r <;> simp [DetailsModel.load_album_info_task, handle_error]
  · cases r <;> simp [PlaylistDetailsModel.load_playlist_info_task, handle_error]
  · simp only [handle_error, Option.some.injEq] at h
    subst h
    rfl

/-- C7 witness: each equational conjunct and the no-mutation fact applied
at concrete results. -/
theorem load_info_task_resolution_witness :
    DetailsModel.load_album_info_task (Except.ok exAlbum) =
      some (AppAction.browser (BrowserAction.SetAlbumDetails exAlbum)) ∧
    DetailsModel.load_album_info_task (Except.error ⟨"net down"⟩) =
      handle_error ⟨"net down"⟩ ∧
    PlaylistDetailsModel.load_playlist_info_task (Except.ok exPlaylist) =
      some (AppAction.browser (BrowserAction.SetPlaylistDetails exPlaylist)) ∧
    PlaylistDetailsModel.load_playlist_info_task (Except.error ⟨"net down"⟩) =
      handle_error ⟨"net down"⟩ ∧
    (AppAction.ShowError "net down").mutates_details = false :=
  ⟨load_info_task_resolution.1 exAlbum,
   load_info_task_resolution.2.1 ⟨"net down"⟩,
   load_info_task_resolution.2.2.2.1 exPlaylist,
   load_info_task_resolution.2.2.2.2.1 ⟨"net down"⟩,
   load_info_task_resolution.2.2.2.2.2.2 ⟨"net down"⟩ (AppAction.ShowError "net down") rfl⟩

/-- C8: `toggle_save_album` is a no-op when details are absent; when the
album is loaded it schedules one unit capturing `(is_liked, id)`, whose
network call is `save_album` when not liked and `remove_saved_album` when
liked, and whose success action carries the server-confirmed state:
`SaveAlbum` with the album the server returned, `UnsaveAlbum` on confirmed
removal; failures resolve to the error reporter's result. -/
theorem toggle_save_album_spec (modelId : String) (s : AppState) :
    (DetailsModel.get_album_info modelId s = none →
      DetailsModel.toggle_save_album modelId s = none) ∧
    (∀ album, DetailsModel.get_album_info modelId s = some album →
      DetailsModel.toggle_save_album modelId s = some (album.is_liked, album.id) ∧
      DetailsModel.toggle_save_call album.is_liked album.id =
        (if album.is_liked then DetailsModel.SaveCall.remove_saved_album album.id
          else DetailsModel.SaveCall.save_album album.id)) ∧
    (∀ id srv rr, DetailsModel.toggle_save_task false id (Except.ok srv) rr =
      some (AppAction.browser (BrowserAction.SaveAlbum srv))) ∧
    (∀ id sr, DetailsModel.toggle_save_task true id sr (Except.ok ()) =
      some (AppAction.browser (BrowserAction.UnsaveAlbum id))) ∧
    (∀ id err rr, DetailsModel.toggle_save_task false id (Except.error err) rr =
      handle_error err) ∧
    (∀ id sr err, DetailsModel.toggle_save_task true id sr (Except.error err) =
      handle_error err) := by
  refine ⟨fun h => ?_, fun album h => ⟨?_, ?_⟩, fun id srv rr => rfl,
    fun id sr => rfl, fun id err rr => rfl, fun id sr err => rfl⟩
  · simp [DetailsModel.toggle_save_album, h]
  · simp [DetailsModel.toggle_save_album, h]
  · cases hl : album.is_liked <;> simp [DetailsModel.toggle_save_call]

/-- C8 witness: no-op on an unknown id; captures for the unliked and liked
fixture albums; server-confirmed actions at concrete results. -/
theorem toggle_save_album_spec_witness :
    DetailsModel.toggle_save_album "zz" exStateLoaded = none ∧
    DetailsModel.toggle_save_album "a1" exStateLoaded = some (false, "a1") ∧
    DetailsModel.toggle_save_album "a4" exStateLoaded = some (true, "a4") ∧
    DetailsModel.toggle_save_call false "a1" = DetailsModel.SaveCall.save_album "a1" ∧
    DetailsModel.toggle_save_task false "a1" (Except.ok exAlbumLiked) (Except.ok ()) =
      some (AppAction.browser (BrowserAction.SaveAlbum exAlbumLiked)) ∧
    DetailsModel.toggle_save_task true "a4" (Except.ok exAlbumLiked) (Except.ok ()) =
      some (AppAction.browser (BrowserAction.UnsaveAlbum "a4")) :=
  ⟨(toggle_save_album_spec "zz" exStateLoaded).1 (by decide),
   ((toggle_save_album_spec "a1" exStateLoaded).2.1 exAlbum (by decide)).1,
   ((toggle_save_album_spec "a4" exStateLoaded).2.1 exAlbumLiked (by decide)).1,
   ((toggle_save_album_spec "a1" exStateLoaded).2.1 exAlbum (by decide)).2,
   (toggle_save_album_spec "a1" exStateLoaded).2.2.1 "a1" exAlbumLiked (Except.ok ()),
   (toggle_save_album_spec "a4" exStateLoaded).2.2.2.1 "a4" (Except.ok exAlbumLiked)⟩

/-- C9: `view_artist` is a no-op when album details are absent and
dispatches `ViewArtist` with the first artist's id when the loaded album
has a nonempty artist list; the panic of the internal `unwrap` is reachable
only when a loaded album has an empty artist list. -/
theorem view_artist_no_panic (modelId : String) (s : AppState) :
    (DetailsModel.get_album_info modelId s = none →
      DetailsModel.view_artist modelId s = DetailsModel.ViewArtistResult.dispatched []) ∧
    (∀ album artist rest, DetailsModel.get_album_info modelId s = some album →
      album.artists = artist :: rest →
      DetailsModel.view_artist modelId s =
        DetailsModel.ViewArtistResult.dispatched [AppAction.ViewArtist artist.id]) ∧
    (DetailsModel.view_artist modelId s = DetailsModel.ViewArtistResult.panicked →
      ∃ album, DetailsModel.get_album_info modelId s = some album ∧
        album.artists = []) := by
  refine ⟨fun h => ?_, fun album artist rest h ha => ?_, fun hp => ?_⟩
  · simp [DetailsModel.view_artist, h]
  · simp [DetailsModel.view_artist, h, ha]
  · cases hg : DetailsModel.get_album_info modelId s with
    | none =>
      have hd : DetailsModel.view_artist modelId s =
          DetailsModel.ViewArtistResult.dispatched [] := by
        simp [DetailsModel.view_artist, hg]
      rw [hd] at hp
      cases hp
    | some album =>
      refine ⟨album, rfl, ?_⟩
      by_contra hne
      obtain ⟨a, rest, ha⟩ := List.exists_cons_of_ne_nil hne
      have hd : DetailsModel.view_artist modelId s =
          DetailsModel.ViewArtistResult.dispatched [AppAction.ViewArtist a.id] := by
        simp [DetailsModel.view_artist, hg, ha]
      rw [hd] at hp
      cases hp

/-- C9 witness: no-op on an unknown id, dispatch on the loaded album, and
the panic-reachability direction instantiated on an album whose artist
list is empty. -/
theorem view_artist_no_panic_witness :
    DetailsModel.view_artist "zz" exStateLoaded =
      DetailsModel.ViewArtistResult.dispatched [] ∧
    DetailsModel.view_artist "a1" exStateLoaded =
      DetailsModel.ViewArtistResult.dispatched [AppAction.ViewArtist "ar1"] ∧
    ∃ album, DetailsModel.get_album_info "a2" exStateSel = some album ∧
      album.artists = [] :=
  ⟨(view_artist_no_panic "zz" exStateLoaded).1 (by decide),
   (view_artist_no_panic "a1" exStateLoaded).2.1 exAlbum ⟨"ar1", "Artist One"⟩ []
     (by decide) (by decide),
   (view_artist_no_panic "a2" exStateSel).2.2 (by decide)⟩

/-- C10: for both models, `select_song` with an id that is not the id of
any song of the current list (in particular when no list is loaded)
dispatches nothing, while `deselect_song` dispatches `Deselect([id])`
unconditionally, with no lookup against the song list. -/
theorem select_deselect_song_spec (modelId : String) (s : AppState) (id : String) :
    ((∀ song ∈ (DetailsModel.songs_ref modelId s).getD [], song.id ≠ id) →
      DetailsModel.select_song modelId s id = []) ∧
    DetailsModel.deselect_song modelId s id =
      [AppAction.selection (SelectionAction.Deselect [id])] ∧
    ((∀ song ∈ (PlaylistDetailsModel.songs_ref modelId s).getD [], song.id ≠ id) →
      PlaylistDetailsModel.select_song modelId s id = []) ∧
    PlaylistDetailsModel.deselect_song modelId s id =
      [AppAction.selection (SelectionAction.Deselect [id])] := by
  refine ⟨fun h => ?_, rfl, fun h => ?_, rfl⟩
  · unfold DetailsModel.select_song
    cases hg : DetailsModel.songs_ref modelId s with
    | none => simp
    | some songs =>
      rw [hg] at h
      have hfind : songs.find? (fun song => song.id == id) = none := by
        rw [List.find?_eq_none]
        intro song hmem
        simpa using h song hmem
      simp [hfind]
  · unfold PlaylistDetailsModel.select_song
    cases hg : PlaylistDetailsModel.songs_ref modelId s with
    | none => simp
    | some songs =>
      rw [hg] at h
      have hfind : songs.find? (fun song => song.id == id) = none := by
        rw [List.find?_eq_none]
        intro song hmem
        simpa using h song hmem
      simp [hfind]

/-- C10 witness: an id absent from both loaded song lists. -/
theorem select_deselect_song_spec_witness :
    DetailsModel.select_song "a1" exStateLoaded "zz" = [] ∧
    DetailsModel.deselect_song "a1" exStateLoaded "zz" =
      [AppAction.selection (SelectionAction.Deselect ["zz"])] ∧
    PlaylistDetailsModel.select_song "p1" exStateLoaded "zz" = [] ∧
    PlaylistDetailsModel.deselect_song "p1" exStateLoaded "zz" =
      [AppAction.selection (SelectionAction.Deselect ["zz"])] :=
  ⟨(select_deselect_song_spec "a1" exStateLoaded "zz").1 (by decide),
   (select_deselect_song_spec "a1" exStateLoaded "zz").2.1,
   (select_deselect_song_spec "p1" exStateLoaded "zz").2.2.1 (by decide),
   (select_deselect_song_spec "p1" exStateLoaded "zz").2.2.2⟩
